import Mathlib

/-!
Verification of the interactive git-workflow CLI toolset (Stager, Commit
Composer, Pusher).  Each definition is a shallow embedding of the
corresponding JavaScript function; external process results (git output,
exit codes) and interactive answers are passed in as explicit parameters.
-/

namespace GitCli

/-! JavaScript string primitives used by the scripts, modelled over
`List Char` (ASCII / BMP code points; the scripts only handle such data). -/

/-- Whitespace characters recognised by JavaScript `String.prototype.trim`
(restricted to the ones that can occur in git output). -/
def isWsChar (c : Char) : Bool :=
  c = ' ' || c = '\t' || c = '\n' || c = '\r'

/-- JavaScript `trim()`: remove leading and trailing whitespace. -/
def jsTrim (s : String) : String :=
  ⟨((s.data.dropWhile isWsChar).reverse.dropWhile isWsChar).reverse⟩

/-- Helper for `jsSplitNl`: split a character list at newline characters,
`acc` holds the (reversed) current segment. -/
def splitNlAux : List Char → List Char → List (List Char)
  | [], acc => [acc.reverse]
  | c :: rest, acc =>
      if c = '\n' then acc.reverse :: splitNlAux rest []
      else splitNlAux rest (c :: acc)

/-- JavaScript `split("\n")`. -/
def jsSplitNl (s : String) : List String :=
  (splitNlAux s.data []).map (fun l => ⟨l⟩)

/-- JavaScript `substring(0, n)` (character-level take). -/
def strTake (s : String) (n : Nat) : String := ⟨s.data.take n⟩

/-- JavaScript `substring(n)` (character-level drop). -/
def strDrop (s : String) (n : Nat) : String := ⟨s.data.drop n⟩

/-- JavaScript `String.prototype.includes`: substring containment. -/
def containsSub (s pat : String) : Bool := decide (pat.data <:+: s.data)

/-- JavaScript `String.prototype.endsWith`. -/
def jsEndsWith (s suf : String) : Bool := suf.data.isSuffixOf s.data

/-- JavaScript `toLowerCase()` (ASCII model). -/
def jsToLower (s : String) : String := ⟨s.data.map Char.toLower⟩

namespace Stager

/-- One parsed entry of `git status --porcelain` output, as built by
`getChangedFiles` in the Add Wizard script (the display color is a pure
function of `displayStatus` and is not modelled separately). -/
structure FileChange where
  status : String
  displayStatus : String
  filePath : String
  isStaged : Bool
deriving DecidableEq

/-- The if/else-if classification chain of `getChangedFiles`, applied to the
trimmed two-character status code: Modified, Added, Deleted, Renamed,
Untracked, Unmerged, first match wins, empty label otherwise. -/
def classifyStatus (status : String) : String :=
  if containsSub status "M" then "Modified"
  else if containsSub status "A" then "Added"
  else if containsSub status "D" then "Deleted"
  else if containsSub status "R" then "Renamed"
  else if containsSub status "?" then "Untracked"
  else if containsSub status "U" then "Unmerged"
  else ""

/-- `status[0] !== " " && status[0] !== "?"` where `status` is the TRIMMED
two-character code (JavaScript indexing an empty string gives `undefined`,
which is unequal to both characters, hence `true` on the empty string). -/
def stagedCheck (status : String) : Bool :=
  match status.data with
  | [] => true
  | c :: _ => c ≠ ' ' && c ≠ '?'

/-- Body of the `.map` callback of `getChangedFiles`:
`status = line.substring(0,2).trim()`, `filePath = line.substring(3)`,
classification chain, and `isStaged = status[0] !== " " && status[0] !== "?"`. -/
def parseStatusLine (line : String) : FileChange :=
  let status := jsTrim (strTake line 2)
  { status := status
    displayStatus := classifyStatus status
    filePath := strDrop line 3
    isStaged := stagedCheck status }

/-- `getChangedFiles` of the Add Wizard, parameterised by the raw
`git status --porcelain` output. -/
def getChangedFiles (statusOutput : String) : List FileChange :=
  ((jsSplitNl statusOutput).filter (fun l => l ≠ "")).map parseStatusLine

/-- Node `path.extname` (used by the stage-by-file-type mode): the extension
of the basename from its last dot, empty for dotless or dot-leading names. -/
def extname (p : String) : String :=
  let base := (p.data.reverse.takeWhile (fun c => c ≠ '/')).reverse
  let revBase := base.reverse
  let afterDot := revBase.takeWhile (fun c => c ≠ '.')
  if afterDot.length = revBase.length then ""
  else if afterDot.length + 1 = base.length then ""
  else ⟨'.' :: afterDot.reverse⟩

/-- The user's selection-mode answer, together with the later answers or
external results that mode consumes: the individually selected paths, the
selected extensions, or the entered pattern and the result of the external
`git ls-files | grep -E` call (`none` when that command fails, e.g. no match). -/
inductive SelectionMode where
  | all : SelectionMode
  | individual (selected : List String) : SelectionMode
  | byType (selectedExts : List String) : SelectionMode
  | byPattern (pattern : String) (grepOutput : Option String) : SelectionMode

/-- Terminal outcome of one Add Wizard run. -/
inductive StagerOutcome where
  | noChanges : StagerOutcome
  | allStaged (chained : Bool) : StagerOutcome
  | noExtensions : StagerOutcome
  | noPatternEntered : StagerOutcome
  | patternNoMatch : StagerOutcome
  | emptySelection : StagerOutcome
  | stageDeclined : StagerOutcome
  | stageFailed : StagerOutcome
  | staged (files : List String) (chained : Bool) : StagerOutcome
deriving DecidableEq

/-- Process exit status of each outcome (`process.exit` argument; outcomes
that let `main` resolve give the natural exit status 0). -/
def stagerExit : StagerOutcome → Nat
  | .noChanges => 0
  | .allStaged _ => 0
  | .noExtensions => 0
  | .noPatternEntered => 1
  | .patternNoMatch => 1
  | .emptySelection => 1
  | .stageDeclined => 0
  | .stageFailed => 1
  | .staged _ _ => 0

/-- Whether the outcome invoked the `git add` staging operation. -/
def stagerMutation : StagerOutcome → Bool
  | .staged _ _ => true
  | .stageFailed => true
  | _ => false

/-- The selection-mode branch of the Add Wizard `main`: either an early
terminal outcome or the computed `filesToStage` list. -/
def selectFiles (unstagedFiles : List FileChange) :
    SelectionMode → Except StagerOutcome (List String)
  | .all => .ok (unstagedFiles.map (fun f => f.filePath))
  | .individual selected => .ok selected
  | .byType selectedExts =>
      let extensions :=
        (((unstagedFiles.map (fun f => extname f.filePath)).filter
            (fun e => e ≠ "")).map jsToLower).eraseDups
      if extensions.length = 0 then .error .noExtensions
      else
        .ok ((unstagedFiles.filter
          (fun f => selectedExts.contains (jsToLower (extname f.filePath)))).map
            (fun f => f.filePath))
  | .byPattern pattern grepOutput =>
      if pattern = "" then .error .noPatternEntered
      else
        match grepOutput with
        | none => .error .patternNoMatch
        | some out =>
            let fs := (jsSplitNl (jsTrim out)).filter (fun l => l ≠ "")
            if fs.length = 0 then .error .patternNoMatch else .ok fs

/-- The Add Wizard `main`, parameterised by the raw porcelain status output,
the selection answers, the `confirmStage` answer, the success of the batched
`git add`, and the `proceedToCommit` answer. -/
def stagerMain (statusOutput : String) (mode : SelectionMode)
    (confirmStage gitAddOk proceedToCommit : Bool) : StagerOutcome :=
  let changedFiles := getChangedFiles statusOutput
  if changedFiles.length = 0 then .noChanges
  else
    let unstagedFiles := changedFiles.filter (fun f => f.isStaged = false)
    if unstagedFiles.length = 0 then .allStaged proceedToCommit
    else
      match selectFiles unstagedFiles mode with
      | .error o => o
      | .ok filesToStage =>
          if filesToStage.length = 0 then .emptySelection
          else if confirmStage = false then .stageDeclined
          else if gitAddOk then .staged filesToStage proceedToCommit
          else .stageFailed

end Stager

namespace Commit

/-- `getStagedFiles` of the Commit Wizard, parameterised by the raw
`git diff --cached --name-only` output: split on newlines, drop empties. -/
def getStagedFiles (raw : String) : List String :=
  (jsSplitNl raw).filter (fun l => l ≠ "")

/-- The alternatives of the branch-scope regex
`^(?:feature|feat|fix|docs|style|refactor|perf|test|build|ci|chore|revert)\/([^-]+)`,
in source order. -/
def branchTypeNames : List String :=
  ["feature", "feat", "fix", "docs", "style", "refactor", "perf", "test",
   "build", "ci", "chore", "revert"]

/-- Regex engine for the branch-scope pattern: try each alternative in
order; on `<alt>/` matching at the start, capture the remainder up to the
first hyphen (an empty capture makes `[^-]+` fail, which yields the same
final suggestion as no match, namely the empty string). -/
def scopeAux : List String → List Char → Option (List Char)
  | [], _ => none
  | p :: ps, l =>
      if (p.data ++ ['/']).isPrefixOf l then some (l.drop (p.data.length + 1))
      else scopeAux ps l

/-- `getScopeSuggestion` of the Commit Wizard, parameterised by the current
branch name: the first regex capture up to the first hyphen, else `""`. -/
def getScopeSuggestion (branch : String) : String :=
  match scopeAux branchTypeNames branch.data with
  | some rest => ⟨rest.takeWhile (fun c => c ≠ '-')⟩
  | none => ""

/-- `c.toUpper ≠ c` test on the first character, i.e. the JavaScript check
`value[0] !== value[0].toUpperCase()` (ASCII model; false on empty). -/
def firstCharLowered (value : String) : Bool :=
  match value.data with
  | [] => false
  | c :: _ => c.toUpper ≠ c

/-- The `validate` callback of the subject prompt: reject empty, reject a
first character that changes under uppercasing, reject a trailing period. -/
def validateSubject (value : String) : Bool :=
  if value = "" then false
  else if firstCharLowered value then false
  else if jsEndsWith value "." then false
  else true

/-- Model of the prompts library validate loop: the user keeps typing until
an attempt passes `validateSubject`; a run submitting only rejected attempts
never yields a subject. -/
def promptSubject (attempts : List String) : Option String :=
  attempts.find? validateSubject

/-- The answers of one completed pass through the Commit Wizard prompt batch
(`useCommonScope` is `none` for the "No scope" choice; `otherScope` is the
extra prompt shown when the common scope "other" is selected). -/
structure CommitResponse where
  type : String
  useCommonScope : Option Bool
  commonScope : String
  customScope : String
  otherScope : String
  subject : String
  body : String
  breaking : Bool
  breakingBody : String
  issues : Bool
  issuesBody : String
deriving DecidableEq

/-- The scope-selection logic after the prompt batch of `main`. -/
def resolveScope (r : CommitResponse) : String :=
  match r.useCommonScope with
  | some true => if r.commonScope = "other" then r.otherScope else r.commonScope
  | some false => r.customScope
  | none => ""

/-- The commit-message assembly of `main` in commit.js: header with optional
scope parentheses, then optional body, optional breaking-change section
(present exactly when the breaking confirmation was answered yes, with a
default text for an empty description), then the issue references (present
when the issues confirmation was answered yes and the reference text is
non-empty). -/
def buildCommitMessage (r : CommitResponse) : String :=
  let scope := resolveScope r
  let scopeText := if scope = "" then "" else "(" ++ scope ++ ")"
  let base := r.type ++ scopeText ++ ": " ++ r.subject
  let withBody := if r.body = "" then base else base ++ "\n\n" ++ r.body
  let withBreaking :=
    if r.breaking then
      withBody ++ "\n\nBREAKING CHANGE: " ++
        (if r.breakingBody = "" then "Breaking changes introduced" else r.breakingBody)
    else withBody
  if r.issues = true ∧ r.issuesBody ≠ "" then withBreaking ++ "\n\n" ++ r.issuesBody
  else withBreaking

/-- A conventional-commit draft as the specification's data model states it:
every optional field is a possibly-empty string. -/
structure CommitDraftSpec where
  type : String
  scope : String
  subject : String
  body : String
  breaking : String
  issues : String

/-- Modelled from the spec's formatting rule for `composeMessage`: each
optional section is appended, preceded by one blank line, exactly when its
field is non-empty; scope parentheses exactly when the scope is non-empty. -/
def specComposeMessage (d : CommitDraftSpec) : String :=
  let scopeText := if d.scope = "" then "" else "(" ++ d.scope ++ ")"
  let base := d.type ++ scopeText ++ ": " ++ d.subject
  let withBody := if d.body = "" then base else base ++ "\n\n" ++ d.body
  let withBreaking :=
    if d.breaking = "" then withBody
    else withBody ++ "\n\nBREAKING CHANGE: " ++ d.breaking
  if d.issues = "" then withBreaking else withBreaking ++ "\n\n" ++ d.issues

/-- The breaking-change note the code effectively emits for a response:
absent when the confirmation was declined, the typed description otherwise,
with the default text substituted for an empty description. -/
def effectiveBreaking (r : CommitResponse) : String :=
  if r.breaking then
    (if r.breakingBody = "" then "Breaking changes introduced" else r.breakingBody)
  else ""

/-- The issue-reference text the code effectively emits for a response:
the typed references when the issues confirmation was answered yes, else
absent. -/
def effectiveIssues (r : CommitResponse) : String :=
  if r.issues then r.issuesBody else ""

/-- Terminal outcome of one Commit Wizard run. -/
inductive CommitOutcome where
  | noStaged : CommitOutcome
  | cancelled : CommitOutcome
  | declined (message : String) : CommitOutcome
  | committed (message : String) (gitOk : Bool) : CommitOutcome
deriving DecidableEq

/-- Process exit status of each outcome. -/
def commitExit : CommitOutcome → Nat
  | .noStaged => 1
  | .cancelled => 1
  | .declined _ => 1
  | .committed _ gitOk => if gitOk then 0 else 1

/-- Whether any interactive prompt was displayed before the run ended. -/
def promptsWereShown : CommitOutcome → Bool
  | .noStaged => false
  | _ => true

/-- Whether the `git commit` operation was invoked. -/
def commitAttempted : CommitOutcome → Bool
  | .committed _ _ => true
  | _ => false

/-- The Commit Wizard `main`: exit immediately when the staged-file list is
empty; otherwise run the prompt batch (`none` = the user sent the cancel
signal, handled by `onCancel`), build the message, and commit only after the
final confirmation. -/
def commitMain (stagedFiles : List String) (response : Option CommitResponse)
    (confirmCommit gitCommitOk : Bool) : CommitOutcome :=
  if stagedFiles.length = 0 then .noStaged
  else
    match response with
    | none => .cancelled
    | some r =>
        if confirmCommit then .committed (buildCommitMessage r) gitCommitOk
        else .declined (buildCommitMessage r)

end Commit

namespace Pusher

/-- `getUnpushedCommits`, parameterised by the result of
`git log <remote>/<branch>..<branch> --oneline` (`none` when the command
fails, e.g. the remote branch does not exist): the trimmed output split on
newlines, `[]` when empty, and the marker list `["new-branch"]` on failure. -/
def getUnpushedCommits (logResult : Option String) : List String :=
  match logResult with
  | none => ["new-branch"]
  | some out =>
      let t := jsTrim out
      if t = "" then [] else jsSplitNl t

/-- Answers of the Push Wizard prompt batch. -/
structure PushAnswers where
  remote : String
  branch : String
  forcePush : Bool
deriving DecidableEq

/-- Observables of a Push Wizard run: the explicit `process.exit` argument
(`none` when `main` resolves and the process exits naturally with status 0),
whether the "no unpushed commits" confirmation was prompted, whether the
new-branch notice was printed, and whether `git push` was spawned. -/
structure PusherResult where
  exitCall : Option Nat
  warnPromptShown : Bool
  newBranchNotice : Bool
  pushAttempted : Bool
deriving DecidableEq

/-- The Push Wizard `main` up to spawning the push process: branch check,
prompt batch (`none` = cancel signal), the three-way branch on
`getUnpushedCommits` (commit list / new-branch notice / no-op warning with
confirmation), and the final push confirmation. -/
def pusherMain (currentBranch : Option String) (answers : Option PushAnswers)
    (logResult : Option String) (warnConfirm finalConfirm : Bool) : PusherResult :=
  match currentBranch with
  | none => ⟨some 1, false, false, false⟩
  | some _ =>
      match answers with
      | none => ⟨some 1, false, false, false⟩
      | some _ =>
          let unpushedCommits := getUnpushedCommits logResult
          if unpushedCommits.length > 0 ∧ unpushedCommits.head? ≠ some "new-branch" then
            if finalConfirm then ⟨none, false, false, true⟩
            else ⟨some 0, false, false, false⟩
          else if unpushedCommits.head? = some "new-branch" then
            if finalConfirm then ⟨none, false, true, true⟩
            else ⟨some 0, false, true, false⟩
          else
            if warnConfirm = false then ⟨some 0, true, false, false⟩
            else if finalConfirm then ⟨none, true, false, true⟩
            else ⟨some 0, true, false, false⟩

/-- ANSI style wrappers of the Push Wizard. -/
def styleHighlight (t : String) : String := "\x1b[38;5;226m" ++ t ++ "\x1b[0m"

/-- ANSI progress style. -/
def styleProgress (t : String) : String := "\x1b[38;5;33m" ++ t ++ "\x1b[0m"

/-- ANSI muted style. -/
def styleMuted (t : String) : String := "\x1b[38;5;245m" ++ t ++ "\x1b[0m"

/-- ANSI success style. -/
def styleSuccess (t : String) : String := "\x1b[38;5;82m" ++ t ++ "\x1b[0m"

/-- Lower-case hex digit, the character class `[a-f0-9]`. -/
def isHexLower (c : Char) : Bool :=
  ('a' ≤ c && c ≤ 'f') || ('0' ≤ c && c ≤ '9')

/-- Does the regex `[a-f0-9]+\.\.[a-f0-9]+ +` match at this position? -/
def refMatchAt (l : List Char) : Bool :=
  let r1 := l.takeWhile isHexLower
  let l1 := l.dropWhile isHexLower
  if r1.length = 0 then false
  else
    match l1 with
    | '.' :: '.' :: l2 =>
        let r2 := l2.takeWhile isHexLower
        let l3 := l2.dropWhile isHexLower
        if r2.length = 0 then false
        else
          match l3 with
          | ' ' :: _ => true
          | _ => false
    | _ => false

/-- JavaScript `line.match(/[a-f0-9]+\.\.[a-f0-9]+ +/) !== null`: the
pattern matches at some position of the line. -/
def hasRefUpdate : List Char → Bool
  | [] => false
  | c :: rest => refMatchAt (c :: rest) || hasRefUpdate rest

/-- `formatGitOutput`: substring-classify every line of the captured push
output purely to pick a display color, accumulating the re-styled lines. -/
def formatGitOutput (output : String) : String :=
  (jsSplitNl output).foldl
    (fun acc line =>
      if containsSub line "Enumerating objects" then acc ++ styleHighlight line ++ "\n"
      else if containsSub line "Counting objects" then acc ++ styleProgress line ++ "\n"
      else if containsSub line "Compressing objects" then acc ++ styleProgress line ++ "\n"
      else if containsSub line "Writing objects" then acc ++ styleProgress line ++ "\n"
      else if containsSub line "Total" then acc ++ styleHighlight line ++ "\n"
      else if containsSub line "remote:" then acc ++ styleMuted line ++ "\n"
      else if hasRefUpdate line.data then acc ++ styleSuccess line ++ "\n"
      else if jsTrim line ≠ "" then acc ++ line ++ "\n"
      else acc)
    ""

/-- Observables of the push-process `close` handler: which banner was
printed, the output text that was displayed, and the `process.exit`
argument (`none`: the handler never calls `process.exit`, so the process
terminates naturally with status 0). -/
structure CloseResult where
  successShown : Bool
  failureShown : Bool
  displayed : String
  exitCall : Option Nat
deriving DecidableEq

/-- The `close` handler of the spawned `git push`: on exit code 0 print the
success banners and the color-formatted output; otherwise print the failure
banner and the raw captured output.  Neither branch calls `process.exit`. -/
def closeHandler (code : Nat) (output : String) : CloseResult :=
  if code = 0 then ⟨true, false, formatGitOutput output, none⟩
  else ⟨false, true, output, none⟩

end Pusher

end GitCli

namespace GitCli

/-! Shared helper lemmas. -/

/-- Helper: a string whose character list decomposes around `pat.data`
contains `pat` as a substring. -/
theorem containsSub_of_decomp (m pat : String) (s t : List Char)
    (h : m.data = s ++ pat.data ++ t) : containsSub m pat = true := by
  unfold containsSub
  exact decide_eq_true ⟨s, t, h.symm⟩

/-- Helper: a string whose character list ends with `pat.data` ends with
`pat`. -/
theorem jsEndsWith_of_decomp (m pat : String) (s : List Char)
    (h : m.data = s ++ pat.data) : jsEndsWith m pat = true := by
  unfold jsEndsWith
  exact List.isSuffixOf_iff_suffix.mpr ⟨s, h.symm⟩

/-- Helper: when no alternative-plus-slash is a prefix of the branch, the
regex engine model yields no match. -/
theorem scopeAux_eq_none (ps : List String) (l : List Char)
    (h : ∀ p ∈ ps, ¬ (p.data ++ ['/']) <+: l) : Commit.scopeAux ps l = none := by
  induction ps with
  | nil => rfl
  | cons p ps ih =>
      unfold Commit.scopeAux
      rw [if_neg, ih]
      · intro q hq
        exact h q (List.mem_cons_of_mem p hq)
      · intro hc
        exact h p (List.mem_cons_self p ps) (List.isPrefixOf_iff_prefix.mp hc)

/-- Helper: every early-exit outcome of the selection-mode branch leaves the
repository untouched. -/
theorem selectFiles_error_mutation (u : List Stager.FileChange)
    (mode : Stager.SelectionMode) (o : Stager.StagerOutcome)
    (h : Stager.selectFiles u mode = .error o) : Stager.stagerMutation o = false := by
  cases mode with
  | all => exact absurd h (by simp [Stager.selectFiles])
  | individual sel => exact absurd h (by simp [Stager.selectFiles])
  | byType exts =>
      simp only [Stager.selectFiles] at h
      split_ifs at h
      obtain rfl : Stager.StagerOutcome.noExtensions = o := by simpa using h
      rfl
  | byPattern pat grep =>
      simp only [Stager.selectFiles] at h
      by_cases hp : pat = ""
      · rw [if_pos hp] at h
        obtain rfl : Stager.StagerOutcome.noPatternEntered = o := by simpa using h
        rfl
      · rw [if_neg hp] at h
        cases grep with
        | none =>
            dsimp only at h
            obtain rfl : Stager.StagerOutcome.patternNoMatch = o := by simpa using h
            rfl
        | some out =>
            dsimp only at h
            split_ifs at h
            obtain rfl : Stager.StagerOutcome.patternNoMatch = o := by simpa using h
            rfl

/-- Claim C1: the code, evaluated at the porcelain line `" M src/app.ts"`
(an unstaged working-tree modification, whose first status character is a
blank), produces `isStaged = true` — because `getChangedFiles` trims the
two-character status code before indexing it.  This contradicts the claim
that a leading-blank line yields `isStaged = false`. -/
theorem Stager.c1_unstaged_line_marked_staged :
    (Stager.parseStatusLine " M src/app.ts").isStaged = true ∧
    " M src/app.ts".data.head? = some ' ' := by
  constructor <;> rfl

/-- Claim C2: for every push exit code and captured output, the close
handler never calls `process.exit` (so the tool's process terminates with
status 0 even on failure), the failure banner is shown exactly on non-zero
exit codes, the success banner exactly on exit code 0 — independent of the
output-line classification — and on failure the raw output is dumped.
Evaluated at the failing input (exit code 1), the handler reports the
failure and dumps the raw output but performs no non-zero process exit. -/
theorem Pusher.c2_push_failure_reported_without_exit :
    (∀ (code : Nat) (output : String),
        (Pusher.closeHandler code output).exitCall = none ∧
        ((Pusher.closeHandler code output).failureShown = true ↔ code ≠ 0) ∧
        ((Pusher.closeHandler code output).successShown = true ↔ code = 0) ∧
        (code ≠ 0 → (Pusher.closeHandler code output).displayed = output)) ∧
    Pusher.closeHandler 1 "error: failed to push some refs" =
      ⟨false, true, "error: failed to push some refs", none⟩ := by
  refine ⟨?_, by decide⟩
  intro code output
  by_cases h : code = 0 <;> simp [Pusher.closeHandler, h]

/-- Claim C3 counterexample: a completed run that confirms breaking changes
but leaves the breaking-change description empty still composes a message
containing a BREAKING CHANGE section (with a default text), so the
section's presence is not equivalent to the non-emptiness of the
breaking-change note field. -/
theorem Commit.c3_breaking_section_despite_empty_note :
    Commit.buildCommitMessage
        ⟨"feat", none, "", "", "", "Add x", "", true, "", false, ""⟩ =
      "feat: Add x\n\nBREAKING CHANGE: Breaking changes introduced" ∧
    containsSub
        (Commit.buildCommitMessage
          ⟨"feat", none, "", "", "", "Add x", "", true, "", false, ""⟩)
        "BREAKING CHANGE:" = true := by
  constructor <;> decide

/-- Claim C3 (amended): the composed message equals the spec's
`composeMessage` template applied to the draft whose body is the typed
body, whose breaking-change note is the typed description when the breaking
confirmation was answered yes (with the default text substituted for an
empty description) and absent otherwise, and whose issues field is the
typed references only when the issues confirmation was answered yes; in
particular scope parentheses appear exactly when the resolved scope is
non-empty, no stray blank lines are produced, and a draft with only type,
scope and subject composes to the single header line. -/
theorem Commit.c3_compose_sections_amended :
    (∀ r : Commit.CommitResponse,
        Commit.buildCommitMessage r =
          Commit.specComposeMessage
            ⟨r.type, Commit.resolveScope r, r.subject, r.body,
             Commit.effectiveBreaking r, Commit.effectiveIssues r⟩) ∧
    Commit.buildCommitMessage
        ⟨"feat", some true, "auth", "", "", "Add login flow", "", false, "", false, ""⟩ =
      "feat(auth): Add login flow" := by
  refine ⟨?_, by decide⟩
  intro r
  unfold Commit.buildCommitMessage Commit.specComposeMessage
    Commit.effectiveBreaking Commit.effectiveIssues
  cases hbr : r.breaking <;> cases hi : r.issues <;>
    by_cases hbb : r.breakingBody = "" <;> by_cases hib : r.issuesBody = "" <;>
      simp [hbb, hib]

/-- Claim C4 counterexample: in the Stager, declining the staging
confirmation prompt terminates with exit code 0 (not 1 as claimed), with no
repository mutation. -/
theorem Stager.c4_confirm_decline_exits_zero :
    Stager.stagerMain "?? a.txt" Stager.SelectionMode.all false true true =
      Stager.StagerOutcome.stageDeclined ∧
    Stager.stagerExit Stager.StagerOutcome.stageDeclined = 0 ∧
    Stager.stagerMutation Stager.StagerOutcome.stageDeclined = false := by
  refine ⟨by decide, rfl, rfl⟩

/-- Claim C4 (amended): the cancel signal at a prompt with a cancel handler
exits 1 with no mutation (Commit Composer prompt batch, Pusher prompt
batch); declining the final confirmation exits 1 in the Commit Composer but
0 in the Pusher; in the Stager declining the staging confirmation exits 0;
and in all cancellation paths no repository mutation is performed. -/
theorem c4_cancellation_amended :
    (∀ (stagedFiles : List String) (confirmCommit gitCommitOk : Bool),
        stagedFiles ≠ [] →
        Commit.commitMain stagedFiles none confirmCommit gitCommitOk =
            Commit.CommitOutcome.cancelled ∧
        Commit.commitExit (Commit.commitMain stagedFiles none confirmCommit gitCommitOk) = 1 ∧
        Commit.commitAttempted
            (Commit.commitMain stagedFiles none confirmCommit gitCommitOk) = false) ∧
    (∀ (stagedFiles : List String) (r : Commit.CommitResponse) (gitCommitOk : Bool),
        stagedFiles ≠ [] →
        Commit.commitMain stagedFiles (some r) false gitCommitOk =
            Commit.CommitOutcome.declined (Commit.buildCommitMessage r) ∧
        Commit.commitExit (Commit.commitMain stagedFiles (some r) false gitCommitOk) = 1 ∧
        Commit.commitAttempted
            (Commit.commitMain stagedFiles (some r) false gitCommitOk) = false) ∧
    (∀ (br : String) (logResult : Option String) (wc fc : Bool),
        Pusher.pusherMain (some br) none logResult wc fc = ⟨some 1, false, false, false⟩) ∧
    (∀ (br : String) (a : Pusher.PushAnswers) (logResult : Option String) (wc : Bool),
        (Pusher.pusherMain (some br) (some a) logResult wc false).exitCall = some 0 ∧
        (Pusher.pusherMain (some br) (some a) logResult wc false).pushAttempted = false) ∧
    (∀ (statusOutput : String) (mode : Stager.SelectionMode) (gitAddOk chained : Bool),
        Stager.stagerMutation
          (Stager.stagerMain statusOutput mode false gitAddOk chained) = false) ∧
    Stager.stagerExit Stager.StagerOutcome.stageDeclined = 0 := by
  refine ⟨?_, ?_, ?_, ?_, ?_, rfl⟩
  · intro sf cc ok h
    have hl : ¬ sf.length = 0 := by simpa [List.length_eq_zero] using h
    refine ⟨?_, ?_, ?_⟩ <;> simp [Commit.commitMain, hl, Commit.commitExit,
      Commit.commitAttempted]
  · intro sf r ok h
    have hl : ¬ sf.length = 0 := by simpa [List.length_eq_zero] using h
    refine ⟨?_, ?_, ?_⟩ <;> simp [Commit.commitMain, hl, Commit.commitExit,
      Commit.commitAttempted]
  · intro br lr wc fc
    rfl
  · intro br a lr wc
    simp only [Pusher.pusherMain]
    split_ifs <;> simp_all
  · intro so mode ok ch
    simp only [Stager.stagerMain]
    split
    · rfl
    · split
      · rfl
      · split
        · exact selectFiles_error_mutation _ _ _ (by assumption)
        · split_ifs <;> simp_all [Stager.stagerMutation]

/-- Claim C4 witness: the amended theorem, instantiated with a non-empty
staged-file list. -/
theorem c4_cancellation_amended_witness :
    Commit.commitMain ["a.ts"] none true true = Commit.CommitOutcome.cancelled ∧
    Commit.commitMain ["a.ts"]
        (some ⟨"feat", none, "", "", "", "Add x", "", false, "", false, ""⟩) false true =
      Commit.CommitOutcome.declined
        (Commit.buildCommitMessage
          ⟨"feat", none, "", "", "", "Add x", "", false, "", false, ""⟩) := by
  have h := c4_cancellation_amended
  exact ⟨(h.1 ["a.ts"] true true (by simp)).1,
         (h.2.1 ["a.ts"] ⟨"feat", none, "", "", "", "Add x", "", false, "", false, ""⟩
           true (by simp)).1⟩

/-- Claim C5: classification of a parsed status line is a total function of
the trimmed two-character code with first-match-wins precedence
Modified > Added > Deleted > Renamed > Untracked > Unmerged (empty label
when no code matches), and the scenario
`["M  src/a.ts", "?? src/b.ts"]` parses to Modified/staged with path
`src/a.ts` and Untracked/unstaged with path `src/b.ts`. -/
theorem Stager.c5_classification_precedence_and_scenario :
    (∀ line : String,
        (containsSub (jsTrim (strTake line 2)) "M" = true →
          (Stager.parseStatusLine line).displayStatus = "Modified") ∧
        (containsSub (jsTrim (strTake line 2)) "M" = false →
         containsSub (jsTrim (strTake line 2)) "A" = true →
          (Stager.parseStatusLine line).displayStatus = "Added") ∧
        (containsSub (jsTrim (strTake line 2)) "M" = false →
         containsSub (jsTrim (strTake line 2)) "A" = false →
         containsSub (jsTrim (strTake line 2)) "D" = true →
          (Stager.parseStatusLine line).displayStatus = "Deleted") ∧
        (containsSub (jsTrim (strTake line 2)) "M" = false →
         containsSub (jsTrim (strTake line 2)) "A" = false →
         containsSub (jsTrim (strTake line 2)) "D" = false →
         containsSub (jsTrim (strTake line 2)) "R" = true →
          (Stager.parseStatusLine line).displayStatus = "Renamed") ∧
        (containsSub (jsTrim (strTake line 2)) "M" = false →
         containsSub (jsTrim (strTake line 2)) "A" = false →
         containsSub (jsTrim (strTake line 2)) "D" = false →
         containsSub (jsTrim (strTake line 2)) "R" = false →
         containsSub (jsTrim (strTake line 2)) "?" = true →
          (Stager.parseStatusLine line).displayStatus = "Untracked") ∧
        (containsSub (jsTrim (strTake line 2)) "M" = false →
         containsSub (jsTrim (strTake line 2)) "A" = false →
         containsSub (jsTrim (strTake line 2)) "D" = false →
         containsSub (jsTrim (strTake line 2)) "R" = false →
         containsSub (jsTrim (strTake line 2)) "?" = false →
         containsSub (jsTrim (strTake line 2)) "U" = true →
          (Stager.parseStatusLine line).displayStatus = "Unmerged") ∧
        (containsSub (jsTrim (strTake line 2)) "M" = false →
         containsSub (jsTrim (strTake line 2)) "A" = false →
         containsSub (jsTrim (strTake line 2)) "D" = false →
         containsSub (jsTrim (strTake line 2)) "R" = false →
         containsSub (jsTrim (strTake line 2)) "?" = false →
         containsSub (jsTrim (strTake line 2)) "U" = false →
          (Stager.parseStatusLine line).displayStatus = "")) ∧
    Stager.getChangedFiles "M  src/a.ts\n?? src/b.ts" =
      [⟨"M", "Modified", "src/a.ts", true⟩, ⟨"??", "Untracked", "src/b.ts", false⟩] := by
  refine ⟨?_, by decide⟩
  intro line
  refine ⟨?_, ?_, ?_, ?_, ?_, ?_, ?_⟩ <;>
    · intros
      simp_all [Stager.parseStatusLine, Stager.classifyStatus]

/-- Claim C5 witness: the precedence implications instantiated at concrete
status lines, including a line whose code carries two applicable letters. -/
theorem Stager.c5_classification_witness :
    (Stager.parseStatusLine "DM x").displayStatus = "Modified" ∧
    (Stager.parseStatusLine "AD x").displayStatus = "Added" ∧
    (Stager.parseStatusLine "D  x").displayStatus = "Deleted" ∧
    (Stager.parseStatusLine "R  x").displayStatus = "Renamed" ∧
    (Stager.parseStatusLine "?? x").displayStatus = "Untracked" ∧
    (Stager.parseStatusLine "UU x").displayStatus = "Unmerged" ∧
    (Stager.parseStatusLine "C  x").displayStatus = "" := by
  have h := Stager.c5_classification_precedence_and_scenario
  exact ⟨(h.1 "DM x").1 (by decide),
         (h.1 "AD x").2.1 (by decide) (by decide),
         (h.1 "D  x").2.2.1 (by decide) (by decide) (by decide),
         (h.1 "R  x").2.2.2.1 (by decide) (by decide) (by decide) (by decide),
         (h.1 "?? x").2.2.2.2.1 (by decide) (by decide) (by decide) (by decide) (by decide),
         (h.1 "UU x").2.2.2.2.2.1 (by decide) (by decide) (by decide) (by decide) (by decide)
           (by decide),
         (h.1 "C  x").2.2.2.2.2.2 (by decide) (by decide) (by decide) (by decide) (by decide)
           (by decide)⟩

/-- Claim C6: with an empty staged-file list the Commit Composer exits with
code 1 before showing any prompt and attempts no commit, whatever the user
would have answered; an empty `git diff --cached --name-only` output parses
to the empty staged-file list. -/
theorem Commit.c6_no_staged_files_guard :
    ∀ (response : Option Commit.CommitResponse) (confirmCommit gitCommitOk : Bool),
      Commit.commitMain [] response confirmCommit gitCommitOk =
          Commit.CommitOutcome.noStaged ∧
      Commit.commitExit (Commit.commitMain [] response confirmCommit gitCommitOk) = 1 ∧
      Commit.promptsWereShown
          (Commit.commitMain [] response confirmCommit gitCommitOk) = false ∧
      Commit.commitAttempted
          (Commit.commitMain [] response confirmCommit gitCommitOk) = false ∧
      Commit.getStagedFiles "" = [] := by
  intro response confirmCommit gitCommitOk
  exact ⟨rfl, rfl, rfl, rfl, rfl⟩

/-- Claim C7: the subject validator rejects a value exactly when it is
empty, its first character changes under uppercasing (the code's
`value[0] !== value[0].toUpperCase()` reading of "not uppercase"), or it
ends with a period; in particular "add login" is rejected and a run that
only ever types "add login" never yields a subject, so no message is
composed from it. -/
theorem Commit.c7_subject_validation :
    (∀ value : String,
        (Commit.validateSubject value = false ↔
          (value.data = [] ∨
           (∃ c l, value.data = c :: l ∧ Char.toUpper c ≠ c) ∨
           ['.'] <:+ value.data))) ∧
    Commit.validateSubject "add login" = false ∧
    Commit.promptSubject ["add login"] = none := by
  refine ⟨?_, by decide, by decide⟩
  intro value
  obtain ⟨l⟩ := value
  unfold Commit.validateSubject Commit.firstCharLowered
  simp only [GitCli.jsEndsWith]
  cases l with
  | nil => simp
  | cons c cs =>
      have hne : (String.mk (c :: cs)) ≠ "" := by simp [String.ext_iff]
      rw [if_neg hne]
      by_cases hu : Char.toUpper c = c
      · simp [hu, List.isSuffixOf_iff_suffix]
      · simp [hu]

/-- Claim C8: a failing `git log <remote>/<branch>..<branch>` (remote branch
not yet existing) yields the distinguished `["new-branch"]` marker, the
new-branch notice, no "no unpushed commits" confirmation, and no error
exit; while an empty (trimmed) log output yields zero outstanding commits,
shows that confirmation, and the push is only attempted when it is
answered yes. -/
theorem Pusher.c8_new_branch_and_noop_guard :
    (∀ (br : String) (a : Pusher.PushAnswers) (wc fc : Bool),
        Pusher.getUnpushedCommits none = ["new-branch"] ∧
        (Pusher.pusherMain (some br) (some a) none wc fc).warnPromptShown = false ∧
        (Pusher.pusherMain (some br) (some a) none wc fc).newBranchNotice = true ∧
        (Pusher.pusherMain (some br) (some a) none wc fc).exitCall ≠ some 1) ∧
    (∀ (br : String) (a : Pusher.PushAnswers) (wc fc : Bool) (out : String),
        jsTrim out = "" →
        (Pusher.pusherMain (some br) (some a) (some out) wc fc).warnPromptShown = true ∧
        ((Pusher.pusherMain (some br) (some a) (some out) wc fc).pushAttempted = true →
          wc = true)) := by
  constructor
  · intro br a wc fc
    cases fc <;> simp [Pusher.pusherMain, Pusher.getUnpushedCommits]
  · intro br a wc fc out hout
    cases wc <;> cases fc <;>
      simp [Pusher.pusherMain, Pusher.getUnpushedCommits, hout]

/-- Claim C8 witness: instantiated at a missing remote branch and at an
empty log output. -/
theorem Pusher.c8_new_branch_witness :
    (Pusher.pusherMain (some "main") (some ⟨"origin", "main", false⟩) none true true).newBranchNotice = true ∧
    (Pusher.pusherMain (some "main") (some ⟨"origin", "main", false⟩) none true true).warnPromptShown = false ∧
    (Pusher.pusherMain (some "main") (some ⟨"origin", "main", false⟩) (some "") false true).warnPromptShown = true := by
  have h := Pusher.c8_new_branch_and_noop_guard
  exact ⟨(h.1 "main" ⟨"origin", "main", false⟩ true true).2.2.1,
         (h.1 "main" ⟨"origin", "main", false⟩ true true).2.1,
         (h.2 "main" ⟨"origin", "main", false⟩ false true "" rfl).1⟩

/-- Claim C9: for every branch name of the shape `<type>/<rest>` with
`<type>` one of the regex alternatives, the suggested scope is `<rest>` cut
at the first hyphen (the regex capture `([^-]+)`; an empty cut equals the
no-match result), and for every branch name not starting with any
`<type>/` the suggestion is empty. -/
theorem Commit.c9_scope_suggestion_from_branch :
    (∀ (branch p : String) (rest : List Char),
        p ∈ Commit.branchTypeNames → branch.data = p.data ++ '/' :: rest →
        Commit.getScopeSuggestion branch = ⟨rest.takeWhile (fun c => c ≠ '-')⟩) ∧
    (∀ branch : String,
        (∀ p ∈ Commit.branchTypeNames, ¬ (p.data ++ ['/']) <+: branch.data) →
        Commit.getScopeSuggestion branch = "") := by
  constructor
  · intro branch p rest hp hb
    unfold Commit.getScopeSuggestion
    rw [hb]
    fin_cases hp <;> simp [Commit.scopeAux, List.isPrefixOf]
  · intro branch h
    unfold Commit.getScopeSuggestion
    rw [scopeAux_eq_none Commit.branchTypeNames branch.data h]

/-- Claim C9 witness: instantiated at a matching and a non-matching branch
name. -/
theorem Commit.c9_scope_suggestion_witness :
    Commit.getScopeSuggestion "feat/auth-login" = "auth" ∧
    Commit.getScopeSuggestion "main" = "" := by
  have h := Commit.c9_scope_suggestion_from_branch
  constructor
  · exact (h.1 "feat/auth-login" "feat" "auth-login".data
      (by simp [Commit.branchTypeNames]) rfl).trans (by decide)
  · exact h.2 "main" (by decide)

/-- Claim C10: whenever the breaking confirmation is answered yes and the
description is left empty, the composed message contains the section
`BREAKING CHANGE: Breaking changes introduced` (a default the user never
typed), and when no issue references follow it is the final section. -/
theorem Commit.c10_default_breaking_text :
    ∀ r : Commit.CommitResponse, r.breaking = true → r.breakingBody = "" →
      containsSub (Commit.buildCommitMessage r)
          "BREAKING CHANGE: Breaking changes introduced" = true ∧
      (Commit.effectiveIssues r = "" →
        jsEndsWith (Commit.buildCommitMessage r)
          "BREAKING CHANGE: Breaking changes introduced" = true) := by
  intro r hb hbb
  constructor
  · by_cases hi : r.issues = true ∧ r.issuesBody ≠ ""
    · apply containsSub_of_decomp _ _
        ((if r.body = "" then r.type ++ (if Commit.resolveScope r = "" then "" else "(" ++ Commit.resolveScope r ++ ")") ++ ": " ++ r.subject else r.type ++ (if Commit.resolveScope r = "" then "" else "(" ++ Commit.resolveScope r ++ ")") ++ ": " ++ r.subject ++ "\n\n" ++ r.body).data ++ ['\n', '\n'])
        ('\n' :: '\n' :: r.issuesBody.data)
      simp [Commit.buildCommitMessage, hb, hbb, hi, String.data_append]
    · apply containsSub_of_decomp _ _
        ((if r.body = "" then r.type ++ (if Commit.resolveScope r = "" then "" else "(" ++ Commit.resolveScope r ++ ")") ++ ": " ++ r.subject else r.type ++ (if Commit.resolveScope r = "" then "" else "(" ++ Commit.resolveScope r ++ ")") ++ ": " ++ r.subject ++ "\n\n" ++ r.body).data ++ ['\n', '\n'])
        []
      simp [Commit.buildCommitMessage, hb, hbb, hi, String.data_append]
  · intro hie
    have hi : ¬ (r.issues = true ∧ r.issuesBody ≠ "") := by
      unfold Commit.effectiveIssues at hie
      cases h : r.issues <;> simp [h] at hie ⊢
      exact hie
    apply jsEndsWith_of_decomp _ _
      ((if r.body = "" then r.type ++ (if Commit.resolveScope r = "" then "" else "(" ++ Commit.resolveScope r ++ ")") ++ ": " ++ r.subject else r.type ++ (if Commit.resolveScope r = "" then "" else "(" ++ Commit.resolveScope r ++ ")") ++ ": " ++ r.subject ++ "\n\n" ++ r.body).data ++ ['\n', '\n'])
    simp [Commit.buildCommitMessage, hb, hbb, hi, String.data_append]

/-- Claim C10 witness: instantiated at a response confirming breaking
changes with an empty description and no issue references. -/
theorem Commit.c10_default_breaking_witness :
    containsSub
        (Commit.buildCommitMessage
          ⟨"feat", none, "", "", "", "Fix API", "", true, "", false, ""⟩)
        "BREAKING CHANGE: Breaking changes introduced" = true ∧
    jsEndsWith
        (Commit.buildCommitMessage
          ⟨"feat", none, "", "", "", "Fix API", "", true, "", false, ""⟩)
        "BREAKING CHANGE: Breaking changes introduced" = true := by
  have h := Commit.c10_default_breaking_text
    ⟨"feat", none, "", "", "", "Fix API", "", true, "", false, ""⟩ rfl rfl
  exact ⟨h.1, h.2 rfl⟩

end GitCli
